import Mathlib

/-!
Verification development for the qwc-ogc-service permission-filtering proxy.

The Lean definitions below are shallow embeddings of the Python source files
of the repository (ogc_service.py, src/ogc_service.py, src/wms_handler.py,
src/wfs_handler.py, src/wfs_filters.py, src/ogcapi_service.py).  Python
dictionaries are modelled as association lists (`List (String × α)`), Python
sets of strings as lists used only through membership, and Python functions
that can raise are modelled with `Option`/`Except`.
-/

namespace QwcOgc

/-! ## WFS name cleaning (src/wfs_handler.py lines 10-22, src/wfs_filters.py lines 10-22) -/

/-- Model of a character matching Python `\w` with `re.UNICODE`.
ASCII letters, digits and the underscore are classified exactly; all
codepoints above 127 are treated as word characters.  This is exact for the
non-ASCII letters and digits that occur in layer/attribute names and matters
nowhere below: the proofs only rely on the (exact) classification of the
ASCII characters space, colon, dot and dash. -/
def pyIsWordChar (c : Char) : Bool :=
  c.isAlphanum || c = '_' || 128 ≤ c.toNat

/-- Python `s.replace(a, b)` for single characters. -/
def pyReplaceChar (a b : Char) (s : String) : String :=
  String.mk (s.toList.map (fun c => if c = a then b else c))

/-- `wfs_clean_layer_name`: `layer_name.replace(" ", "_").replace(":", "-")`. -/
def wfsCleanLayerName (s : String) : String :=
  pyReplaceChar ':' '-' (pyReplaceChar ' ' '_' s)

/-- Characters kept by `UNICODE_PAT.sub('', ...)`, i.e. the complement of
the pattern `[^\w.\-_]`. -/
def keptAttrChar (c : Char) : Bool :=
  pyIsWordChar c || c = '.' || c = '-' || c = '_'

/-- `wfs_clean_attribute_name`: replace spaces by underscores, then strip
every character outside word/dot/dash/underscore. -/
def wfsCleanAttributeName (s : String) : String :=
  String.mk ((pyReplaceChar ' ' '_' s).toList.filter keptAttrChar)

/-! ## Opacity padding (ogc_service.py lines 470-502 `padded_opacities`;
the `padded_opacities_styles` variant in src/ogc_service.py lines 542-585
computes opacities identically) -/

/-- Model of Python `int(s)` on the strings produced by splitting an
OPACITIES parameter: optional surrounding ASCII whitespace, an optional
sign, then a non-empty run of ASCII digits.  (Python additionally accepts
underscore-grouped and non-ASCII digits; such values do not occur in
OPACITIES parameters and are immaterial to the padding logic.)
Returns `none` where Python raises `ValueError`. -/
def pyParseInt (s : String) : Option Int :=
  let t := (((s.toList.dropWhile (fun c => c = ' ' || c = '\t'))).reverse.dropWhile
      (fun c => c = ' ' || c = '\t')).reverse
  let (sign, digits) :=
    match t with
    | '-' :: rest => ((-1 : Int), rest)
    | '+' :: rest => ((1 : Int), rest)
    | _ => ((1 : Int), t)
  if digits = [] then none
  else if digits.all Char.isDigit then
    some (sign * (digits.foldl (fun acc c => acc * 10 + (c.toNat - '0'.toNat)) (0 : Nat) : Nat))
  else none

/-- Python `s.startswith(p)` (String.startsWith is extensionally the same
but is defined by well-founded recursion, which blocks kernel evaluation).
-/
def pyStartsWith (p s : String) : Bool :=
  p.toList.isPrefixOf s.toList

/-- Python `s.split(sep)` for a single-character separator: `"".split(",")`
is `[""]`, `",".split(",")` is `["", ""]`. -/
def pySplit (sep : Char) (s : String) : List String :=
  (s.toList.splitOn sep).map String.mk

/-- One entry of the requested-layers/opacities list. -/
structure LayerOpacity where
  layer : String
  opacity : Int
  deriving DecidableEq, Repr

/-- `OGCService.padded_opacities`: complement requested opacities to match
the number of requested layers.  `opacitiesParam = none` models an absent
OPACITIES parameter, `some ""` a present-but-empty one (falsy in Python,
hence no split). -/
def paddedOpacities (requestedLayers : List String) (opacitiesParam : Option String) :
    List LayerOpacity :=
  let requestedOpacities : List String :=
    match opacitiesParam with
    | some p => if p ≠ "" then pySplit ',' p else []
    | none => []
  requestedLayers.enum.map (fun il =>
    let i := il.1
    let layer := il.2
    match requestedOpacities.get? i with
    | some entry =>
      match pyParseInt entry with
      | some v => ⟨layer, if v < 0 || 255 < v then 255 else v⟩
      | none => ⟨layer, 0⟩
    | none =>
      if i = 0 ∧ opacitiesParam.isSome then ⟨layer, 0⟩ else ⟨layer, 255⟩)

/-- Claim-side specification of the opacity at index `i`, written from the
words of the claim: a split entry parsing as an integer in [0,255] is taken
as is, an out-of-range integer coerces to 255, a malformed entry coerces to
0, an index beyond the list defaults to 255 except that the first entry
defaults to 0 when the OPACITIES parameter was present but empty. -/
def claimOpacityAt (opacitiesParam : Option String) (i : Nat) : Int :=
  let entries : List String :=
    match opacitiesParam with
    | some p => if p = "" then [] else pySplit ',' p
    | none => []
  match entries.get? i with
  | some entry =>
    match pyParseInt entry with
    | some v => if 0 ≤ v ∧ v ≤ 255 then v else 255
    | none => 0
  | none => if i = 0 ∧ opacitiesParam = some "" then 0 else 255

/-! ## Facade group expansion
(ogc_service.py lines 527-585 `expand_group_layers_and_opacities`; embedded
in its src/ogc_service.py form `expand_group_layers_opacities_styles`,
lines 610-671, which additionally threads the STYLES entries) -/

/-- One entry of a requested layers/opacities/styles list. -/
structure LayerOpacityStyle where
  layer : String
  opacity : Int
  style : String
  deriving DecidableEq, Repr

/-- The sublayer entry built for a facade group child: opacity scaled by the
custom opacity of a hidden sublayer via Python `int(opacity * custom / 100)`
(float division then truncation toward zero, here `Int.tdiv`; exact for the
magnitudes involved), empty style. -/
def facadeSublayerEntry (hso : List (String × Int)) (opacity : Int) (s : String) :
    LayerOpacityStyle :=
  { layer := s
    opacity :=
      match hso.lookup s with
      | some custom => Int.tdiv (opacity * custom) 100
      | none => opacity
    style := "" }

/-- `OGCService.expand_group_layers_opacities_styles`: recursively replace
restricted group layers ("facades") by their permitted sublayers in reversed
order.  `rgl` is the `restricted_group_layers` lookup, `hso` the
`hidden_sublayer_opacities` lookup.  The `fuel` argument is a modelling
artifact bounding the number of recursion steps (Python only bounds the
group nesting depth); `none` models exhausting it, which never happens for
sufficient fuel over an acyclic catalog. -/
def expandGLOS (rgl : List (String × List String)) (hso : List (String × Int)) :
    Nat → List LayerOpacityStyle → Option (List LayerOpacityStyle)
  | _, [] => some []
  | 0, _ :: _ => none
  | fuel + 1, lo :: rest =>
    match rgl.lookup lo.layer with
    | none =>
      match expandGLOS rgl hso fuel rest with
      | some rx => some (lo :: rx)
      | none => none
    | some sublayers =>
      let subs := sublayers.reverse.map (facadeSublayerEntry hso lo.opacity)
      match expandGLOS rgl hso fuel subs, expandGLOS rgl hso fuel rest with
      | some ex, some rx => some (ex ++ rx)
      | _, _ => none

/-- Rounding to the nearest integer (half away from zero) of n/100, used to
state the claim formula round(parentOpacity * childCatalogOpacityPercent / 100)
for nonnegative n.  At the counterexample value 150 (= 5 * 30) both this and
Python bankers rounding of 1.5 give 2. -/
def roundHalfUpDiv100 (n : Int) : Int := (n + 50) / 100

/-! ## Permission-set computation (ogc_service.py lines 808-1015
`OGCService.service_permissions`; identical combine logic in
src/ogc_service.py lines 892-1099) -/

/-- One layer entry of a WMS/WFS role grant. -/
structure GrantLayer where
  name : String
  attributes : List String
  deriving DecidableEq, Repr

/-- One WMS role grant record. -/
structure WmsGrant where
  layers : List GrantLayer
  print_templates : List String
  deriving DecidableEq, Repr

/-- The WMS resources collected per service from the ResourceCatalog
(`load_resources`/`collect_layers`); URL fields are omitted as no claim
mentions them. -/
structure WmsResources where
  layers : List (String × List String)
  group_layers : List (String × List String)
  internal_print_layers : List String
  public_layers : List String
  queryable_layers : List String
  feature_info_aliases : List (String × String)
  hidden_sublayer_opacities : List (String × Int)
  print_templates : List String
  deriving DecidableEq, Repr

/-- `available_layers`: leaf layers, group layers and internal print layers. -/
def availableWmsLayers (res : WmsResources) : List String :=
  res.layers.map Prod.fst ++ res.group_layers.map Prod.fst ++ res.internal_print_layers

/-- Add attributes to an accumulator entry, creating the entry when absent
(`permitted_layers[name] = set()` followed by `update`).  The Python set is
modelled by a list used only through membership. -/
def assocAppendAttrs (acc : List (String × List String)) (k : String) (vs : List String) :
    List (String × List String) :=
  match acc with
  | [] => [(k, vs)]
  | (k', v') :: rest =>
    if k' = k then (k', v' ++ vs) :: rest else (k', v') :: assocAppendAttrs rest k vs

/-- One step of the WMS permitted-layer accumulation.  Python evaluates
`wms_resources['layers'][name]` once per granted attribute: a grant naming
an available non-leaf layer together with attributes raises `KeyError`,
modelled as `none`. -/
def collectWmsGrantLayer (res : WmsResources) (acc : List (String × List String))
    (gl : GrantLayer) : Option (List (String × List String)) :=
  if gl.name ∈ availableWmsLayers res then
    match gl.attributes, res.layers.lookup gl.name with
    | [], _ => some (assocAppendAttrs acc gl.name [])
    | attrs, some catAttrs =>
      some (assocAppendAttrs acc gl.name (attrs.filter (fun a => decide (a ∈ catAttrs))))
    | _ :: _, none => none
  else
    some acc

/-- The `permitted_layers` accumulator over all WMS role grants. -/
def collectWmsPermittedLayers (res : WmsResources) (grants : List WmsGrant) :
    Option (List (String × List String)) :=
  grants.foldlM (fun acc g => g.layers.foldlM (collectWmsGrantLayer res) acc) []

/-- The permitted print templates accumulated over all WMS role grants. -/
def collectWmsPrintTemplates (res : WmsResources) (grants : List WmsGrant) : List String :=
  grants.foldl
    (fun acc g => acc ++ g.print_templates.filter (fun t => decide (t ∈ res.print_templates)))
    []

/-- The WMS permission set returned by `service_permissions` (URL fields
omitted). -/
structure WmsPermissionSet where
  public_layers : List String
  layers : List (String × List String)
  queryable_layers : List String
  feature_info_aliases : List (String × String)
  restricted_group_layers : List (String × List String)
  hidden_sublayer_opacities : List (String × Int)
  internal_print_layers : List String
  print_templates : List String
  deriving DecidableEq, Repr

/-- `OGCService.service_permissions`, WMS branch, given that the service
exists and at least one grant applies (the caller otherwise returns the
empty sentinel).  `none` models the `KeyError` crash described in
`collectWmsGrantLayer`. -/
def wmsServicePermissions (res : WmsResources) (grants : List WmsGrant) :
    Option WmsPermissionSet :=
  match collectWmsPermittedLayers res grants with
  | none => none
  | some permitted =>
    let keys := permitted.map Prod.fst
    let permittedTemplates := collectWmsPrintTemplates res grants
    some
      { public_layers := res.public_layers.filter (fun l => decide (l ∈ keys))
        layers := res.layers.filterMap (fun la =>
          if la.1 ∈ keys then
            some (la.1, la.2.filter (fun a => decide (a ∈ (permitted.lookup la.1).getD [])))
          else none)
        queryable_layers := res.queryable_layers.filter (fun l => decide (l ∈ keys))
        feature_info_aliases := res.feature_info_aliases.filter (fun al => decide (al.2 ∈ keys))
        restricted_group_layers := res.group_layers.filterMap (fun gs =>
          if gs.1 ∈ keys then some (gs.1, gs.2.filter (fun l => decide (l ∈ keys)))
          else none)
        hidden_sublayer_opacities :=
          res.hidden_sublayer_opacities.filter (fun lo => decide (lo.1 ∈ keys))
        internal_print_layers := res.internal_print_layers.filter (fun l => decide (l ∈ keys))
        print_templates := res.print_templates.filter (fun t => decide (t ∈ permittedTemplates)) }

/-- The WFS resources for a service: layer name to attribute list (the
online-resource field is omitted). -/
structure WfsResources where
  layers : List (String × List String)
  deriving DecidableEq, Repr

/-- One step of the WFS permitted-layer accumulation (same shape as the WMS
one, with `available_layers` just the WFS layer keys, so the `KeyError`
case cannot arise; it is kept for source fidelity). -/
def collectWfsGrantLayer (res : WfsResources) (acc : List (String × List String))
    (gl : GrantLayer) : Option (List (String × List String)) :=
  if gl.name ∈ res.layers.map Prod.fst then
    match gl.attributes, res.layers.lookup gl.name with
    | [], _ => some (assocAppendAttrs acc gl.name [])
    | attrs, some catAttrs =>
      some (assocAppendAttrs acc gl.name (attrs.filter (fun a => decide (a ∈ catAttrs))))
    | _ :: _, none => none
  else
    some acc

/-- One WFS role grant record. -/
structure WfsGrant where
  layers : List GrantLayer
  deriving DecidableEq, Repr

/-- The `permitted_layers` accumulator over all WFS role grants. -/
def collectWfsPermittedLayers (res : WfsResources) (grants : List WfsGrant) :
    Option (List (String × List String)) :=
  grants.foldlM (fun acc g => g.layers.foldlM (collectWfsGrantLayer res) acc) []

/-- The WFS permission set returned by `service_permissions` (URL fields
omitted). -/
structure WfsPermissionSet where
  public_layers : List String
  layers : List (String × List String)
  deriving DecidableEq, Repr

/-- `OGCService.service_permissions`, WFS branch (service exists, at least
one grant). -/
def wfsServicePermissions (res : WfsResources) (grants : List WfsGrant) :
    Option WfsPermissionSet :=
  match collectWfsPermittedLayers res grants with
  | none => none
  | some permitted =>
    let keys := permitted.map Prod.fst
    some
      { public_layers := (res.layers.map Prod.fst).filter (fun l => decide (l ∈ keys))
        layers := res.layers.filterMap (fun la =>
          if la.1 ∈ keys then
            some (la.1, la.2.filter (fun a => decide (a ∈ (permitted.lookup la.1).getD [])))
          else none) }

/-! ## OGC-API-Features permission computation
(src/ogcapi_service.py lines 201-245 `OGCAPIService.service_permissions`,
`features` branch) -/

/-- One layer entry of a role grant as consumed by the OGC-API-Features
service (capability flags default to `False` via `.get(..., False)`). -/
structure OapiGrantLayer where
  name : String
  attributes : List String
  writable : Bool
  creatable : Bool
  readable : Bool
  updatable : Bool
  deletable : Bool
  deriving DecidableEq, Repr

/-- One OGC-API-Features role grant record. -/
structure OapiGrant where
  layers : List OapiGrantLayer
  deriving DecidableEq, Repr

/-- The per-layer permission accumulated by the OGC-API-Features service. -/
structure OapiLayerPermission where
  attributes : List String
  writable : Bool
  creatable : Bool
  readable : Bool
  updatable : Bool
  deletable : Bool
  deriving DecidableEq, Repr

/-- Update the OGC-API accumulator for one granted layer: OR the capability
flags and union the attributes (a fresh entry starts from all-false flags
and empty attributes). -/
def oapiUpdateLayer (acc : List (String × OapiLayerPermission)) (gl : OapiGrantLayer) :
    List (String × OapiLayerPermission) :=
  let prev := (acc.lookup gl.name).getD ⟨[], false, false, false, false, false⟩
  let merged : OapiLayerPermission :=
    { attributes := prev.attributes ++ gl.attributes
      writable := prev.writable || gl.writable
      creatable := prev.creatable || gl.creatable
      readable := prev.readable || gl.readable
      updatable := prev.updatable || gl.updatable
      deletable := prev.deletable || gl.deletable }
  match acc with
  | [] => [(gl.name, merged)]
  | (k, v) :: rest =>
    if k = gl.name then (k, merged) :: rest else (k, v) :: oapiUpdateLayer rest gl

/-- `OGCAPIService.service_permissions`, `features` branch: the permitted
layers are copied straight from the role grants.  Note that, unlike the
WMS/WFS branches of `OGCService.service_permissions`, this function never
consults the ResourceCatalog. -/
def oapiFeaturesPermissions (grants : List OapiGrant) : List (String × OapiLayerPermission) :=
  grants.foldl (fun acc g => g.layers.foldl oapiUpdateLayer acc) []

/-! ## WFS Transaction filtering
(src/wfs_handler.py lines 143-207 `WfsHandler.__check_transaction`) -/

/-- The per-layer WFS permission as consumed by the transaction filter
(`permissions['permitted_layers'][typename]`); fields not read by
`__check_transaction` are omitted. -/
structure WfsLayerPermission where
  attributes : List String
  creatable : Bool
  updatable : Bool
  deletable : Bool
  deriving DecidableEq, Repr

/-- A typename element inside a `wfs:Insert`: its tag (namespace prefix
already stripped, as by `removeprefix`) and the tags of its child attribute
elements. -/
structure InsertFeature where
  tag : String
  attribs : List String
  deriving DecidableEq, Repr

/-- A `wfs:Update` element: its `typeName` and the `wfs:Name` texts of its
`wfs:Property` children. -/
structure UpdateElement where
  typeName : String
  properties : List String
  deriving DecidableEq, Repr

/-- A parsed WFS Transaction body: the `wfs:Insert` elements (each a list of
typename elements), the `wfs:Update` elements and the `typeName` attributes
of the `wfs:Delete` elements. -/
structure TransactionBody where
  inserts : List (List InsertFeature)
  updates : List UpdateElement
  deletes : List String
  deriving DecidableEq, Repr

/-- Whether an attribute element is kept: the geometry attribute is always
kept, other attributes only when permitted. -/
def keepAttrib (attrs : List String) (a : String) : Bool :=
  wfsCleanAttributeName a = "geometry" || decide (wfsCleanAttributeName a ∈ attrs)

/-- Filter the typename elements of one `wfs:Insert`: an unpermitted
typename is removed, a permitted one without `creatable` aborts with
Forbidden, otherwise the unpermitted attribute children are stripped. -/
def filterInsertFeatures (perms : List (String × WfsLayerPermission)) :
    List InsertFeature → Except (String × String) (List InsertFeature)
  | [] => .ok []
  | f :: rest =>
    match perms.lookup (wfsCleanLayerName f.tag) with
    | none => filterInsertFeatures perms rest
    | some p =>
      if !p.creatable then
        .error ("Forbidden", "No create permissions on typename " ++ wfsCleanLayerName f.tag)
      else
        match filterInsertFeatures perms rest with
        | .error e => .error e
        | .ok rest' => .ok ({ f with attribs := f.attribs.filter (keepAttrib p.attributes) } :: rest')

/-- Process all `wfs:Insert` elements in order. -/
def filterInsertList (perms : List (String × WfsLayerPermission)) :
    List (List InsertFeature) → Except (String × String) (List (List InsertFeature))
  | [] => .ok []
  | el :: rest =>
    match filterInsertFeatures perms el with
    | .error e => .error e
    | .ok el' =>
      match filterInsertList perms rest with
      | .error e => .error e
      | .ok rest' => .ok (el' :: rest')

/-- Filter the `wfs:Update` elements: unpermitted typeName dropped,
permitted without `updatable` aborts with Forbidden, otherwise unpermitted
`wfs:Property` entries are stripped (geometry kept). -/
def filterUpdates (perms : List (String × WfsLayerPermission)) :
    List UpdateElement → Except (String × String) (List UpdateElement)
  | [] => .ok []
  | u :: rest =>
    match perms.lookup (wfsCleanLayerName u.typeName) with
    | none => filterUpdates perms rest
    | some p =>
      if !p.updatable then
        .error ("Forbidden", "No update permissions on typename " ++ wfsCleanLayerName u.typeName)
      else
        match filterUpdates perms rest with
        | .error e => .error e
        | .ok rest' => .ok ({ u with properties := u.properties.filter (keepAttrib p.attributes) } :: rest')

/-- Filter the `wfs:Delete` elements: unpermitted typeName dropped,
permitted without `deletable` aborts with Forbidden. -/
def filterDeletes (perms : List (String × WfsLayerPermission)) :
    List String → Except (String × String) (List String)
  | [] => .ok []
  | d :: rest =>
    match perms.lookup (wfsCleanLayerName d) with
    | none => filterDeletes perms rest
    | some p =>
      if !p.deletable then
        .error ("Forbidden", "No delete permissions on typename " ++ wfsCleanLayerName d)
      else
        match filterDeletes perms rest with
        | .error e => .error e
        | .ok rest' => .ok (d :: rest')

/-- `WfsHandler.__check_transaction`: filter the transaction body by
permissions; `.error` models the returned `(code, message)` tuple, in which
case the body is not rewritten and nothing is forwarded. -/
def checkTransaction (body : TransactionBody) (perms : List (String × WfsLayerPermission)) :
    Except (String × String) TransactionBody :=
  match filterInsertList perms body.inserts with
  | .error e => .error e
  | .ok inserts' =>
    match filterUpdates perms body.updates with
    | .error e => .error e
    | .ok updates' =>
      match filterDeletes perms body.deletes with
      | .error e => .error e
      | .ok deletes' => .ok ⟨inserts', updates', deletes'⟩

/-- The attribute-stripped form of a kept insert feature (used to state the
success shape of `checkTransaction`). -/
def insertFeatureFiltered (perms : List (String × WfsLayerPermission)) (f : InsertFeature) :
    InsertFeature :=
  match perms.lookup (wfsCleanLayerName f.tag) with
  | some p => { f with attribs := f.attribs.filter (keepAttrib p.attributes) }
  | none => f

/-- The property-stripped form of a kept update element. -/
def updateElementFiltered (perms : List (String × WfsLayerPermission)) (u : UpdateElement) :
    UpdateElement :=
  match perms.lookup (wfsCleanLayerName u.typeName) with
  | some p => { u with properties := u.properties.filter (keepAttrib p.attributes) }
  | none => u

/-! ## OGC-API-Features write requests
(src/ogcapi_service.py lines 595-620 `__getFeatures_request` and lines
706-752 `__getFeature_request`) -/

/-- The JSON payload of an OGC-API-Features write request, modelled by its
optional `properties` and `modify` objects (values are opaque strings). -/
structure OapiPayload where
  properties : Option (List (String × String))
  modify : Option (List (String × String))
  deriving DecidableEq, Repr

/-- An OGC-API-Features JSON error, modelled by its `code` and the HTTP
status it is returned with (the human-readable description is omitted). -/
structure ApiError where
  code : String
  status : Nat
  deriving DecidableEq, Repr

/-- Filter a JSON object to the keys whose cleaned name is permitted. -/
def filterPayloadKeys (attrs : List String) (obj : List (String × String)) :
    List (String × String) :=
  obj.filter (fun kv => decide (wfsCleanAttributeName kv.1 ∈ attrs))

/-- `OGCAPIService.__getFeatures_request` for `/collections/(id)/items`:
`perm` is the layer permission looked up for the cleaned collection id
(`none` when the collection is not a key of the permission set). -/
def getFeaturesRequest (method : String) (perm : Option OapiLayerPermission)
    (data : OapiPayload) : OapiPayload × Option ApiError :=
  match perm with
  | none => (data, some ⟨"API not found error", 404⟩)
  | some lp =>
    if method = "GET" && !lp.readable then
      (data, some ⟨"API not found error", 404⟩)
    else if method = "POST" then
      if !lp.writable || !lp.creatable then
        (data, some ⟨"Forbidden", 403⟩)
      else
        ({ data with properties := data.properties.map (filterPayloadKeys lp.attributes) }, none)
    else
      (data, none)

/-- `OGCAPIService.__getFeature_request` for `/collections/(id)/items/(fid)`. -/
def getFeatureRequest (method : String) (perm : Option OapiLayerPermission)
    (data : OapiPayload) : OapiPayload × Option ApiError :=
  match perm with
  | none => (data, some ⟨"API not found error", 404⟩)
  | some lp =>
    if method = "GET" && !lp.readable then
      (data, some ⟨"API not found error", 404⟩)
    else if method = "PATCH" then
      if !lp.writable || !lp.updatable then
        (data, some ⟨"Forbidden", 403⟩)
      else
        ({ data with modify := data.modify.map (filterPayloadKeys lp.attributes) }, none)
    else if method = "PUT" then
      if !lp.writable || !lp.updatable then
        (data, some ⟨"Forbidden", 403⟩)
      else
        ({ data with properties := data.properties.map (filterPayloadKeys lp.attributes) }, none)
    else if method = "DELETE" then
      if !lp.writable || !lp.deletable then
        (data, some ⟨"Forbidden", 403⟩)
      else
        (data, none)
    else
      (data, none)

/-! ## WMS request validation
(src/wms_handler.py lines 27-106, checking phase of
`WmsHandler.process_request`; parameter rewriting follows only when no
exception is returned, and the request is forwarded only afterwards) -/

/-- The fields of the WMS permissions object read by the checking phase. -/
structure WmsPermissionsView where
  public_layers : List String
  internal_print_layers : List String
  print_templates : List String
  deriving DecidableEq, Repr

/-- `WmsHandler.__get_map_param_prefix`: the prefix of the first parameter
key ending in `:EXTENT`, or the empty string. -/
def getMapParamName (params : List (String × String)) : String :=
  match params.find? (fun kv => kv.1.endsWith ":EXTENT") with
  | some kv => kv.1.dropRight 7
  | none => ""

/-- Python truthiness of `params.get(k)`: present with a non-empty value. -/
def paramTruthy (params : List (String × String)) (k : String) : Bool :=
  match params.lookup k with
  | some v => v ≠ ""
  | none => false

/-- The supported WMS requests. -/
def wmsSupportedRequests : List String :=
  ["GETCAPABILITIES", "GETMAP", "GETFEATUREINFO", "GETLEGENDGRAPHIC", "GETSTYLE",
   "GETSTYLES", "DESCRIBELAYER", "GETPRINT", "GETPROJECTSETTINGS", "GETSCHEMAEXTENSION"]

/-- The WMS requests for which the layers parameter is mandatory. -/
def wmsLayerMandatoryRequests : List String :=
  ["GETMAP", "GETFEATUREINFO", "GETLEGENDGRAPHIC", "DESCRIBELAYER", "GETSTYLE", "GETSTYLES"]

/-- The feature-info formats accepted for GETFEATUREINFO. -/
def wmsInfoFormatWhitelist : List String := ["text/plain", "text/html", "text/xml"]

/-- Checking phase of `WmsHandler.process_request`: returns the
`(code, message)` exception tuple, or `none` when the request passes and is
subsequently rewritten and forwarded. -/
def wmsRequestChecks (request : String) (params : List (String × String))
    (perms : WmsPermissionsView) : Option (String × String) :=
  if request ∉ wmsSupportedRequests then
    some ("OperationNotSupported", "Request " ++ request ++ " is not supported")
  else
    let layersParam :=
      if request = "GETPRINT" then
        let mapname := getMapParamName params
        if mapname ≠ "" ∧ (params.lookup (mapname ++ ":LAYERS")).isSome then
          mapname ++ ":LAYERS"
        else "LAYERS"
      else if request = "GETLEGENDGRAPHIC" ∧ (params.lookup "LAYERS").isNone ∧
          (params.lookup "LAYER").isSome then
        "LAYER"
      else "LAYERS"
    let publicLayers :=
      perms.public_layers ++
        (if (request = "GETMAP" ∧ paramTruthy params "FILENAME") ∨ request = "GETPRINT" then
          perms.internal_print_layers
        else [])
    let layerCheck : Option (String × String) :=
      match params.lookup layersParam with
      | some layers =>
        if layers ≠ "" then
          match (pySplit ',' layers).find? (fun layer =>
              decide (layer ≠ "") && !pyStartsWith "EXTERNAL_WMS:" layer &&
              decide (layer ∉ publicLayers)) with
          | some layer =>
            some ("LayerNotDefined", "Layer " ++ layer ++ " does not exist or is not permitted")
          | none => none
        else if request ∈ wmsLayerMandatoryRequests then
          some ("MissingParameterValue",
            layersParam ++ " is mandatory for " ++ request ++ " operation")
        else none
      | none =>
        if request ∈ wmsLayerMandatoryRequests then
          some ("MissingParameterValue",
            layersParam ++ " is mandatory for " ++ request ++ " operation")
        else none
    match layerCheck with
    | some e => some e
    | none =>
      if request = "GETFEATUREINFO" then
        if params.lookup "LAYERS" ≠ params.lookup "QUERY_LAYERS" then
          some ("InvalidParameterValue",
            "LAYERS must be identical to QUERY_LAYERS for GETFEATUREINFO operation")
        else
          let infoFormat := (params.lookup "INFO_FORMAT").getD "text/plain"
          if infoFormat ∉ wmsInfoFormatWhitelist then
            some ("InvalidFormat", "Feature info format " ++ infoFormat ++ " is not supported.")
          else none
      else if request = "GETPRINT" then
        let templateOk :=
          match params.lookup "TEMPLATE" with
          | some t => decide (t ∈ perms.print_templates)
          | none => false
        if templateOk then none
        else some ("Error", "Composer template not found or not permitted")
      else none

/-! ## WFS request processing
(src/wfs_handler.py lines 46-117 `WfsHandler.process_request`) -/

/-- Python `dict[k] = v`: replace the value in place or append the key. -/
def setParam (params : List (String × String)) (k v : String) : List (String × String) :=
  match params with
  | [] => [(k, v)]
  | (k', v') :: rest => if k' = k then (k, v) :: rest else (k', v') :: setParam rest k v

/-- ASCII `str.lower()` (OUTPUTFORMAT values are ASCII). -/
def asciiLower (s : String) : String :=
  String.mk (s.toList.map Char.toLower)

/-- The GETFEATURE output-format alias table. -/
def wfsFormatMap : List (String × String) :=
  [("gml2", "gml2"),
   ("text/xml; subtype=gml/2.1.2", "gml2"),
   ("gml3", "gml3"),
   ("text/xml; subtype=gml/3.1.1", "gml3"),
   ("geojson", "geojson"),
   ("application/vnd.geo+json", "geojson"),
   ("application/vnd.geo json", "geojson"),
   ("application/geo+json", "geojson"),
   ("application/geo json", "geojson"),
   ("application/json", "geojson")]

/-- `WfsHandler.process_request`: verb check, TYPENAME/FEATUREID permission
checks, VERSION normalization, OUTPUTFORMAT normalization for GETFEATURE
and transaction-body filtering for TRANSACTION.  `.error` models the
returned `(code, message)` tuple; `.ok` returns the adjusted parameters and
body that are then forwarded to the backend. -/
def wfsProcessRequest (request : String) (params : List (String × String))
    (perms : List (String × WfsLayerPermission)) (data : Option TransactionBody) :
    Except (String × String) (List (String × String) × Option TransactionBody) :=
  if request ∉ ["GETCAPABILITIES", "GETFEATURE", "DESCRIBEFEATURETYPE", "TRANSACTION"] then
    .error ("OperationNotSupported", "Request " ++ request ++ " is not supported")
  else
    let permittedKeys := perms.map Prod.fst
    match (pySplit ',' ((params.lookup "TYPENAME").getD "")).find? (fun t =>
        decide (t ≠ "") && decide (wfsCleanLayerName t ∉ permittedKeys)) with
    | some t =>
      .error ("RequestNotWellFormed", "TypeName " ++ t ++ " could not be found or is not permitted")
    | none =>
      match (pySplit ',' ((params.lookup "FEATUREID").getD "")).find? (fun fid =>
          decide (fid ≠ "") &&
          decide (wfsCleanLayerName ((pySplit '.' fid).headD "") ∉ permittedKeys)) with
      | some fid =>
        .error ("RequestNotWellFormed",
          "TypeName " ++ (pySplit '.' fid).headD "" ++ " could not be found or is not permitted")
      | none =>
        let params1 :=
          if params.lookup "VERSION" = some "1.0.0" ∨ params.lookup "VERSION" = some "1.1.0" then
            params
          else setParam params "VERSION" "1.1.0"
        if request = "GETFEATURE" then
          let fmt := (wfsFormatMap.lookup (asciiLower ((params1.lookup "OUTPUTFORMAT").getD ""))).getD
            (if params1.lookup "VERSION" = some "1.1.0" then "gml3" else "gml2")
          .ok (setParam params1 "OUTPUTFORMAT" fmt, data)
        else if request = "TRANSACTION" then
          match data with
          | some body =>
            match checkTransaction body perms with
            | .error e => .error e
            | .ok body' => .ok (params1, some body')
          | none => .ok (params1, data)
        else
          .ok (params1, data)

/-! ## Backend failure handling
(src/ogc_service.py lines 721-759 `OGCService.forward_request`, after the
backend response was received; same error branch in ogc_service.py lines
635-650, which returns HTTP 200 instead of passing the status through) -/

/-- `xml.sax.saxutils.escape`. -/
def xmlEscape (s : String) : String :=
  String.join (s.toList.map (fun c =>
    if c = '&' then "&amp;"
    else if c = '<' then "&lt;"
    else if c = '>' then "&gt;"
    else String.mk [c]))

/-- `OGCService.service_exception`: the ServiceExceptionReport XML document. -/
def serviceException (code message : String) : String :=
  "<ServiceExceptionReport version=\"1.3.0\">\n <ServiceException code=\"" ++ code ++ "\">" ++
    xmlEscape message ++ "</ServiceException>\n</ServiceExceptionReport>"

/-- The fixed message of the generic backend-failure exception. -/
def internalErrorMessage : String :=
  "The server encountered an internal error or misconfiguration and was unable to complete your request."

/-- What `forward_request` does with the backend response: either an
exception report built locally, or the backend body handed on to the
response filters / streamed through. -/
inductive ForwardOutcome where
  | exceptionReport (content : String) (contentType : String) (status : Nat)
  | filtered (backendBody : String)
  deriving DecidableEq, Repr

/-- The response branch of `OGCService.forward_request`: any backend status
other than 200 (`requests.codes.ok`) yields the generic exception report;
the backend body is only logged, never used in the report. -/
def forwardRequestOutcome (status : Nat) (backendBody : String) : ForwardOutcome :=
  if status ≠ 200 then
    .exceptionReport (serviceException "UnknownError" internalErrorMessage)
      "text/xml; charset=utf-8" status
  else
    .filtered backendBody

/-! ## The GeoJSON GetFeature filter bug
(src/wfs_filters.py lines 233-266 `wfs_getfeature_geojson` and lines
164-187 `wfs_getfeature`) -/

/-- Python runtime errors relevant here. -/
inductive PyError where
  | nameError
  deriving DecidableEq, Repr

/-- The names bound at module level in src/wfs_filters.py (imports and
top-level definitions); `text` is not among them. -/
def wfsFiltersModuleGlobals : List String :=
  ["ElementTree", "re", "urlparse", "OrderedDict", "json", "Response", "requests",
   "UNICODE_PAT", "wfs_clean_layer_name", "wfs_clean_attribute_name", "NS_MAP",
   "register_namespaces", "get_service_url", "wfs_getcapabilities",
   "wfs_describefeaturetype", "wfs_getfeature", "wfs_getfeature_gml",
   "wfs_getfeature_geojson", "wfs_transaction"]

/-- Python name resolution for a free variable inside a function: local
scope, then module globals (builtins bind no `text` either). -/
def pythonResolves (locals : List String) (globals : List String) (n : String) : Bool :=
  decide (n ∈ locals) || decide (n ∈ globals)

/-- `wfs_getfeature_geojson`: after line 240 (`geo_json = json.loads(
response.text, ...)`) and line 241 (`features = geo_json.get(...)`) the
local scope binds exactly the parameters and these two names; line 243 then
evaluates `json.loads(text, ...)` where `text` is unbound, so the function
raises `NameError` before any filtering. -/
def wfsGetfeatureGeojson (responseText : String) : Except PyError String :=
  let localsAtLine243 := ["response", "permissions", "geo_json", "features"]
  if pythonResolves localsAtLine243 wfsFiltersModuleGlobals "text" then
    -- never reached: line 243 onwards would filter and serialize the GeoJSON
    .ok responseText
  else
    .error .nameError

/-- `wfs_getfeature`: dispatch on status and OUTPUTFORMAT.  `gmlFilter`
stands for `wfs_getfeature_gml` (irrelevant to the claim, hence a
parameter).  `content_type` is only assigned inside the `status == ok`
branch, modelled by an `Option` local that is `none` on the other path
(reading it there is a further `NameError`). -/
def wfsGetfeature (gmlFilter : String → String) (status : Nat)
    (outputformatParam : Option String) (contentTypeHeader : String)
    (responseText : String) : Except PyError (String × String) :=
  if status = 200 then
    let contentTypeLocal : Option String := some contentTypeHeader
    let result :=
      if asciiLower (outputformatParam.getD "gml3") = "geojson" then
        wfsGetfeatureGeojson responseText
      else
        .ok (gmlFilter responseText)
    match result with
    | .error e => .error e
    | .ok features =>
      match contentTypeLocal with
      | some ct => .ok (features, ct)
      | none => .error .nameError
  else
    match (none : Option String) with
    | some ct => .ok (responseText, ct)
    | none => .error .nameError

/-! ## Theorems -/

theorem toList_mk (l : List Char) : (String.mk l).toList = l := rfl

theorem keptAttrChar_ne_space {c : Char} (h : keptAttrChar c = true) : c ≠ ' ' := by
  rintro rfl
  simp [keptAttrChar, pyIsWordChar, Char.isAlphanum, Char.isAlpha, Char.isDigit,
    Char.isUpper, Char.isLower] at h

theorem keptAttrChar_ne_colon {c : Char} (h : keptAttrChar c = true) : c ≠ ':' := by
  rintro rfl
  simp [keptAttrChar, pyIsWordChar, Char.isAlphanum, Char.isAlpha, Char.isDigit,
    Char.isUpper, Char.isLower] at h

/-- C9: the name-cleaning functions are idempotent, and on names built only
from word characters, dots, dashes and underscores both `wfs_clean_layer_name`
and `wfs_clean_attribute_name` are the identity. -/
theorem wfs_clean_names_algebra :
    (∀ s : String, wfsCleanLayerName (wfsCleanLayerName s) = wfsCleanLayerName s) ∧
    (∀ s : String, wfsCleanAttributeName (wfsCleanAttributeName s) = wfsCleanAttributeName s) ∧
    (∀ s : String, (∀ c ∈ s.toList, keptAttrChar c) →
      wfsCleanLayerName s = s ∧ wfsCleanAttributeName s = s) := by
  refine ⟨?_, ?_, ?_⟩
  · intro s
    obtain ⟨l⟩ := s
    simp only [wfsCleanLayerName, pyReplaceChar, toList_mk, List.map_map]
    refine congrArg String.mk (List.map_congr_left ?_)
    intro c _
    simp only [Function.comp]
    by_cases h1 : c = ' '
    · subst h1; decide
    by_cases h2 : c = ':'
    · subst h2; decide
    simp [h1, h2]
  · intro s
    obtain ⟨l⟩ := s
    simp only [wfsCleanAttributeName, pyReplaceChar, toList_mk]
    refine congrArg String.mk ?_
    have hmem : ∀ c ∈ (l.map (fun c => if c = ' ' then '_' else c)).filter keptAttrChar,
        keptAttrChar c = true := fun c hc => (List.mem_filter.mp hc).2
    have hmap : ((l.map (fun c => if c = ' ' then '_' else c)).filter keptAttrChar).map
        (fun c => if c = ' ' then '_' else c) =
        (l.map (fun c => if c = ' ' then '_' else c)).filter keptAttrChar := by
      refine (List.map_congr_left ?_).trans (List.map_id _)
      intro c hc
      simp [keptAttrChar_ne_space (hmem c hc)]
    rw [hmap]
    exact List.filter_eq_self.mpr hmem
  · intro s hs
    obtain ⟨l⟩ := s
    have hs' : ∀ c ∈ l, keptAttrChar c = true := hs
    have hmapSpace : l.map (fun c => if c = ' ' then '_' else c) = l := by
      refine (List.map_congr_left ?_).trans (List.map_id _)
      intro c hc
      simp [keptAttrChar_ne_space (hs' c hc)]
    constructor
    · simp only [wfsCleanLayerName, pyReplaceChar, toList_mk, hmapSpace]
      refine congrArg String.mk ?_
      refine (List.map_congr_left ?_).trans (List.map_id _)
      intro c hc
      simp [keptAttrChar_ne_colon (hs' c hc)]
    · simp only [wfsCleanAttributeName, pyReplaceChar, toList_mk, hmapSpace]
      exact congrArg String.mk (List.filter_eq_self.mpr hs')

/-- Witness for C9: a concrete word-character name on which both cleaners
are the identity. -/
theorem wfs_clean_names_algebra_witness :
    wfsCleanLayerName "edit_points.v2-x" = "edit_points.v2-x" ∧
    wfsCleanAttributeName "edit_points.v2-x" = "edit_points.v2-x" :=
  wfs_clean_names_algebra.2.2 "edit_points.v2-x" (by decide)

theorem pySplit_ne_nil (sep : Char) (s : String) : pySplit sep s ≠ [] := by
  unfold pySplit
  intro h
  exact List.splitOnP_ne_nil _ _ (List.map_eq_nil_iff.mp h)

/-- C6: `padded_opacities` matches, entry by entry, the claimed padding
rule: a split entry parsing as an integer in [0,255] is taken, an
out-of-range integer coerces to 255, a malformed entry coerces to 0, and a
missing entry defaults to 255 except that the first entry defaults to 0
when an OPACITIES parameter was present but empty. -/
theorem padded_opacities_matches_claim (ls : List String) (p : Option String) :
    paddedOpacities ls p = ls.enum.map (fun il => ⟨il.2, claimOpacityAt p il.1⟩) := by
  cases p with
  | none =>
    simp only [paddedOpacities, claimOpacityAt]
    refine List.map_congr_left ?_
    intro il _
    simp
  | some q =>
    by_cases hq : q = ""
    · subst hq
      simp only [paddedOpacities, claimOpacityAt]
      refine List.map_congr_left ?_
      intro il _
      simp only [ne_eq, not_true_eq_false, if_false, if_pos rfl, List.get?_nil,
        Option.isSome_some, and_true]
      split <;> rfl
    · simp only [paddedOpacities, claimOpacityAt, if_neg hq, if_pos (Ne.symm hq ∘ Eq.symm)]
      refine List.map_congr_left ?_
      intro il _
      rcases hE : (pySplit ',' q).get? il.1 with _ | e
      · have hlen : (pySplit ',' q).length ≤ il.1 := List.get?_eq_none.mp hE
        have hpos : 0 < (pySplit ',' q).length :=
          List.length_pos.mpr (pySplit_ne_nil ',' q)
        have hne : il.1 ≠ 0 := by omega
        simp [hE, hne, hq]
      · rcases hP : pyParseInt e with _ | v
        · simp [hE, hP]
        · simp only [hE, hP]
          congr 1
          by_cases h0 : v < 0
          · rw [if_pos (by simp [h0]), if_neg (by omega)]
          · by_cases h255 : 255 < v
            · rw [if_pos (by simp [h255]), if_neg (by omega)]
            · rw [if_neg (by simp [h0, h255]), if_pos (by constructor <;> omega)]

theorem expandGLOS_no_groups (rgl : List (String × List String)) (hso : List (String × Int)) :
    ∀ (los : List LayerOpacityStyle) (fuel : Nat),
      (∀ lo ∈ los, rgl.lookup lo.layer = none) → los.length ≤ fuel →
      expandGLOS rgl hso fuel los = some los := by
  intro los
  induction los with
  | nil => intro fuel _ _; cases fuel <;> rfl
  | cons lo rest ih =>
    intro fuel h hlen
    cases fuel with
    | zero => simp at hlen
    | succ f =>
      have hlo := h lo (List.mem_cons_self _ _)
      have hrest : rest.length ≤ f := by
        simp only [List.length_cons] at hlen
        omega
      simp only [expandGLOS, hlo]
      rw [ih f (fun x hx => h x (List.mem_cons_of_mem _ hx)) hrest]

/-- C2 counterexample: expanding the facade group G (children [A], catalog
opacity 30 for A) at requested opacity 5 yields child opacity
`int(5 * 30 / 100) = 1` (Python truncation), not the claimed
`round(5 * 30 / 100) = round(1.5) = 2` (the same value under Python
bankers rounding), so the claimed general rounding formula is false. -/
theorem facade_expansion_rounding_counterexample :
    expandGLOS [("G", ["A"])] [("A", 30)] 5 [⟨"G", 5, ""⟩] = some [⟨"A", 1, ""⟩] ∧
    roundHalfUpDiv100 (5 * 30) = 2 ∧
    expandGLOS [("G", ["A"])] [("A", 30)] 5 [⟨"G", 5, ""⟩] ≠
      some [⟨"A", roundHalfUpDiv100 (5 * 30), ""⟩] :=
  ⟨by decide, by decide, by decide⟩

/-- C2 amended: for a facade group G with catalog children [A, B] (declared
top-to-bottom, catalog opacities 100 and 50) and both children permitted,
expanding (G, opacity 200) yields exactly [B, A] (children reversed,
bottom-to-top) with opacities [100, 200] and empty styles; in general a
facade group entry is replaced by its permitted children in reverse
declaration order, each child opacity being the Python truncation
`int(parentOpacity * childCatalogOpacityPercent / 100)` when the child has
a recorded hidden-sublayer opacity, and the parent opacity unchanged
otherwise, with empty styles (the requested style of the group is
discarded). -/
theorem facade_expansion_amended :
    (expandGLOS [("G", ["A", "B"])] [("A", 100), ("B", 50)] 5 [⟨"G", 200, ""⟩] =
      some [⟨"B", 100, ""⟩, ⟨"A", 200, ""⟩]) ∧
    (∀ (rgl : List (String × List String)) (hso : List (String × Int))
        (g : String) (op : Int) (st : String) (subs : List String) (fuel : Nat),
      rgl.lookup g = some subs →
      (∀ s ∈ subs, rgl.lookup s = none) →
      subs.length < fuel →
      expandGLOS rgl hso fuel [⟨g, op, st⟩] =
        some (subs.reverse.map (facadeSublayerEntry hso op))) := by
  constructor
  · decide
  · intro rgl hso g op st subs fuel hlookup hleaf hfuel
    cases fuel with
    | zero => omega
    | succ f =>
      simp only [expandGLOS, hlookup]
      have hsubs : expandGLOS rgl hso f (subs.reverse.map (facadeSublayerEntry hso op)) =
          some (subs.reverse.map (facadeSublayerEntry hso op)) := by
        refine expandGLOS_no_groups rgl hso _ f ?_ ?_
        · intro lo hlo
          obtain ⟨s, hs, rfl⟩ := List.mem_map.mp hlo
          exact hleaf s (List.mem_reverse.mp hs)
        · simp only [List.length_map, List.length_reverse]
          omega
      rw [hsubs]
      simp

/-- Witness for the general part of the amended C2 theorem at a concrete
facade group. -/
theorem facade_expansion_amended_witness :
    expandGLOS [("H", ["X", "Y"])] [("X", 25)] 7 [⟨"H", 100, "sty"⟩] =
      some [⟨"Y", 100, ""⟩, ⟨"X", 25, ""⟩] :=
  (facade_expansion_amended.2 [("H", ["X", "Y"])] [("X", 25)] "H" 100 "sty" ["X", "Y"] 7
    (by decide) (by decide) (by decide)).trans (by decide)

/-- C1 counterexample: `OGCAPIService.service_permissions` copies role
grants without intersecting with the ResourceCatalog, so a grant for a
layer absent from the catalog (here "ghost" with attribute "secret",
against a catalog containing only "real") still becomes a key of the
computed permission set, with the granted attribute kept verbatim. -/
theorem oapi_permissions_no_catalog_intersection :
    ("ghost" ∈ (oapiFeaturesPermissions
        [⟨[⟨"ghost", ["secret"], true, true, true, true, true⟩]⟩]).map Prod.fst) ∧
    ("ghost" ∉ ([("real", ["a", "b"])] : List (String × List String)).map Prod.fst) ∧
    (oapiFeaturesPermissions
        [⟨[⟨"ghost", ["secret"], true, true, true, true, true⟩]⟩]).lookup "ghost" =
      some ⟨["secret"], true, true, true, true, true⟩ := by
  decide

/-- C1 amended: for the WMS and WFS permission sets computed by
`OGCService.service_permissions`, every permitted layer exists in the
ResourceCatalog of the service and every permitted attribute belongs to
that layer's catalog attribute list, and the permitted public layers are
among the catalog's public layers; the OGC-API-Features
`service_permissions` performs no such intersection (see the
counterexample). -/
theorem service_permissions_catalog_intersection :
    (∀ (res : WmsResources) (grants : List WmsGrant) (ps : WmsPermissionSet),
      wmsServicePermissions res grants = some ps →
      (∀ l as, (l, as) ∈ ps.layers → ∃ cas, (l, cas) ∈ res.layers ∧ ∀ a ∈ as, a ∈ cas) ∧
      ps.public_layers ⊆ res.public_layers) ∧
    (∀ (res : WfsResources) (grants : List WfsGrant) (ps : WfsPermissionSet),
      wfsServicePermissions res grants = some ps →
      (∀ l as, (l, as) ∈ ps.layers → ∃ cas, (l, cas) ∈ res.layers ∧ ∀ a ∈ as, a ∈ cas) ∧
      ps.public_layers ⊆ res.layers.map Prod.fst) := by
  constructor
  · intro res grants ps h
    rw [wmsServicePermissions] at h
    cases hc : collectWmsPermittedLayers res grants with
    | none => rw [hc] at h; exact absurd h (by simp)
    | some permitted =>
      rw [hc] at h
      simp only [Option.some.injEq] at h
      subst h
      constructor
      · intro l as hmem
        simp only [List.mem_filterMap] at hmem
        obtain ⟨la, hla, hf⟩ := hmem
        split at hf
        · simp only [Option.some.injEq, Prod.mk.injEq] at hf
          refine ⟨la.2, ?_, ?_⟩
          · rw [← hf.1]
            simpa using hla
          · intro a ha
            rw [← hf.2] at ha
            exact (List.mem_filter.mp ha).1
        · exact absurd hf (by simp)
      · intro x hx
        exact List.mem_of_mem_filter hx
  · intro res grants ps h
    rw [wfsServicePermissions] at h
    cases hc : collectWfsPermittedLayers res grants with
    | none => rw [hc] at h; exact absurd h (by simp)
    | some permitted =>
      rw [hc] at h
      simp only [Option.some.injEq] at h
      subst h
      constructor
      · intro l as hmem
        simp only [List.mem_filterMap] at hmem
        obtain ⟨la, hla, hf⟩ := hmem
        split at hf
        · simp only [Option.some.injEq, Prod.mk.injEq] at hf
          refine ⟨la.2, ?_, ?_⟩
          · rw [← hf.1]
            simpa using hla
          · intro a ha
            rw [← hf.2] at ha
            exact (List.mem_filter.mp ha).1
        · exact absurd hf (by simp)
      · intro x hx
        exact List.mem_of_mem_filter hx

/-- Witness for the amended C1 theorem on a concrete WMS catalog and grant:
the grant names the catalog layer "L" with attributes ["a", "z"], of which
only the catalog attribute "a" survives. -/
theorem service_permissions_catalog_intersection_witness :
    ∃ cas, ("L", cas) ∈ ([("L", ["a", "b"])] : List (String × List String)) ∧
      ∀ a ∈ ["a"], a ∈ cas :=
  (service_permissions_catalog_intersection.1
      ⟨[("L", ["a", "b"])], [], [], ["L"], [], [], [], []⟩
      [⟨[⟨"L", ["a", "z"]⟩], []⟩]
      ⟨["L"], [("L", ["a"])], [], [], [], [], [], []⟩
      (by decide)).1 "L" ["a"] (by decide)

theorem filterInsertFeatures_error_code (perms : List (String × WfsLayerPermission)) :
    ∀ l e, filterInsertFeatures perms l = .error e → e.1 = "Forbidden" := by
  intro l
  induction l with
  | nil => intro e h; simp [filterInsertFeatures] at h
  | cons f rest ih =>
    intro e h
    simp only [filterInsertFeatures] at h
    cases hl : perms.lookup (wfsCleanLayerName f.tag) with
    | none => rw [hl] at h; exact ih e h
    | some p =>
      rw [hl] at h
      cases hc : p.creatable with
      | false =>
        simp only [hc, Bool.not_false, if_pos] at h
        cases h
        rfl
      | true =>
        simp only [hc, Bool.not_true, Bool.false_eq_true, if_false] at h
        cases hr : filterInsertFeatures perms rest with
        | error e' => rw [hr] at h; cases h; exact ih _ hr
        | ok rest' => rw [hr] at h; cases h

theorem filterInsertList_error_code (perms : List (String × WfsLayerPermission)) :
    ∀ ls e, filterInsertList perms ls = .error e → e.1 = "Forbidden" := by
  intro ls
  induction ls with
  | nil => intro e h; simp [filterInsertList] at h
  | cons el rest ih =>
    intro e h
    simp only [filterInsertList] at h
    cases he : filterInsertFeatures perms el with
    | error e' =>
      rw [he] at h
      cases h
      exact filterInsertFeatures_error_code perms el _ he
    | ok el' =>
      rw [he] at h
      cases hr : filterInsertList perms rest with
      | error e' => rw [hr] at h; cases h; exact ih _ hr
      | ok rest' => rw [hr] at h; cases h

theorem filterUpdates_error_code (perms : List (String × WfsLayerPermission)) :
    ∀ l e, filterUpdates perms l = .error e → e.1 = "Forbidden" := by
  intro l
  induction l with
  | nil => intro e h; simp [filterUpdates] at h
  | cons u rest ih =>
    intro e h
    simp only [filterUpdates] at h
    cases hl : perms.lookup (wfsCleanLayerName u.typeName) with
    | none => rw [hl] at h; exact ih e h
    | some p =>
      rw [hl] at h
      cases hc : p.updatable with
      | false =>
        simp only [hc, Bool.not_false, if_pos] at h
        cases h
        rfl
      | true =>
        simp only [hc, Bool.not_true, Bool.false_eq_true, if_false] at h
        cases hr : filterUpdates perms rest with
        | error e' => rw [hr] at h; cases h; exact ih _ hr
        | ok rest' => rw [hr] at h; cases h

theorem filterDeletes_error_code (perms : List (String × WfsLayerPermission)) :
    ∀ l e, filterDeletes perms l = .error e → e.1 = "Forbidden" := by
  intro l
  induction l with
  | nil => intro e h; simp [filterDeletes] at h
  | cons d rest ih =>
    intro e h
    simp only [filterDeletes] at h
    cases hl : perms.lookup (wfsCleanLayerName d) with
    | none => rw [hl] at h; exact ih e h
    | some p =>
      rw [hl] at h
      cases hc : p.deletable with
      | false =>
        simp only [hc, Bool.not_false, if_pos] at h
        cases h
        rfl
      | true =>
        simp only [hc, Bool.not_true, Bool.false_eq_true, if_false] at h
        cases hr : filterDeletes perms rest with
        | error e' => rw [hr] at h; cases h; exact ih _ hr
        | ok rest' => rw [hr] at h; cases h

theorem filterInsertFeatures_bad (perms : List (String × WfsLayerPermission)) :
    ∀ l, (∃ f ∈ l, ∃ p, perms.lookup (wfsCleanLayerName f.tag) = some p ∧ p.creatable = false) →
      ∃ e, filterInsertFeatures perms l = .error e := by
  intro l
  induction l with
  | nil => rintro ⟨f, hf, _⟩; cases hf
  | cons f0 rest ih =>
    rintro ⟨f, hf, p, hp, hcr⟩
    rcases List.mem_cons.mp hf with rfl | hfrest
    · exact ⟨("Forbidden", "No create permissions on typename " ++ wfsCleanLayerName f.tag),
        by simp [filterInsertFeatures, hp, hcr]⟩
    · cases hl : perms.lookup (wfsCleanLayerName f0.tag) with
      | none =>
        obtain ⟨e, he⟩ := ih ⟨f, hfrest, p, hp, hcr⟩
        exact ⟨e, by simp [filterInsertFeatures, hl, he]⟩
      | some p0 =>
        cases hc : p0.creatable with
        | false =>
          exact ⟨("Forbidden", "No create permissions on typename " ++ wfsCleanLayerName f0.tag),
            by simp [filterInsertFeatures, hl, hc]⟩
        | true =>
          obtain ⟨e, he⟩ := ih ⟨f, hfrest, p, hp, hcr⟩
          exact ⟨e, by simp [filterInsertFeatures, hl, hc, he]⟩

theorem filterInsertList_bad (perms : List (String × WfsLayerPermission)) :
    ∀ ls, (∃ el ∈ ls, ∃ f ∈ el, ∃ p,
        perms.lookup (wfsCleanLayerName f.tag) = some p ∧ p.creatable = false) →
      ∃ e, filterInsertList perms ls = .error e := by
  intro ls
  induction ls with
  | nil => rintro ⟨el, hel, _⟩; cases hel
  | cons el0 rest ih =>
    rintro ⟨el, hel, hbad⟩
    rcases List.mem_cons.mp hel with rfl | helrest
    · obtain ⟨e, he⟩ := filterInsertFeatures_bad perms el hbad
      exact ⟨e, by simp [filterInsertList, he]⟩
    · cases he : filterInsertFeatures perms el0 with
      | error e => exact ⟨e, by simp [filterInsertList, he]⟩
      | ok el0' =>
        obtain ⟨e, her⟩ := ih ⟨el, helrest, hbad⟩
        exact ⟨e, by simp [filterInsertList, he, her]⟩

theorem filterUpdates_bad (perms : List (String × WfsLayerPermission)) :
    ∀ l, (∃ u ∈ l, ∃ p, perms.lookup (wfsCleanLayerName u.typeName) = some p ∧ p.updatable = false) →
      ∃ e, filterUpdates perms l = .error e := by
  intro l
  induction l with
  | nil => rintro ⟨u, hu, _⟩; cases hu
  | cons u0 rest ih =>
    rintro ⟨u, hu, p, hp, hup⟩
    rcases List.mem_cons.mp hu with rfl | hurest
    · exact ⟨("Forbidden", "No update permissions on typename " ++ wfsCleanLayerName u.typeName),
        by simp [filterUpdates, hp, hup]⟩
    · cases hl : perms.lookup (wfsCleanLayerName u0.typeName) with
      | none =>
        obtain ⟨e, he⟩ := ih ⟨u, hurest, p, hp, hup⟩
        exact ⟨e, by simp [filterUpdates, hl, he]⟩
      | some p0 =>
        cases hc : p0.updatable with
        | false =>
          exact ⟨("Forbidden", "No update permissions on typename " ++ wfsCleanLayerName u0.typeName),
            by simp [filterUpdates, hl, hc]⟩
        | true =>
          obtain ⟨e, he⟩ := ih ⟨u, hurest, p, hp, hup⟩
          exact ⟨e, by simp [filterUpdates, hl, hc, he]⟩

theorem filterDeletes_bad (perms : List (String × WfsLayerPermission)) :
    ∀ l, (∃ d ∈ l, ∃ p, perms.lookup (wfsCleanLayerName d) = some p ∧ p.deletable = false) →
      ∃ e, filterDeletes perms l = .error e := by
  intro l
  induction l with
  | nil => rintro ⟨d, hd, _⟩; cases hd
  | cons d0 rest ih =>
    rintro ⟨d, hd, p, hp, hdp⟩
    rcases List.mem_cons.mp hd with rfl | hdrest
    · exact ⟨("Forbidden", "No delete permissions on typename " ++ wfsCleanLayerName d),
        by simp [filterDeletes, hp, hdp]⟩
    · cases hl : perms.lookup (wfsCleanLayerName d0) with
      | none =>
        obtain ⟨e, he⟩ := ih ⟨d, hdrest, p, hp, hdp⟩
        exact ⟨e, by simp [filterDeletes, hl, he]⟩
      | some p0 =>
        cases hc : p0.deletable with
        | false =>
          exact ⟨("Forbidden", "No delete permissions on typename " ++ wfsCleanLayerName d0),
            by simp [filterDeletes, hl, hc]⟩
        | true =>
          obtain ⟨e, he⟩ := ih ⟨d, hdrest, p, hp, hdp⟩
          exact ⟨e, by simp [filterDeletes, hl, hc, he]⟩

theorem filterInsertFeatures_ok (perms : List (String × WfsLayerPermission)) :
    ∀ l, (∀ f ∈ l, ∀ p, perms.lookup (wfsCleanLayerName f.tag) = some p → p.creatable = true) →
      filterInsertFeatures perms l =
        .ok ((l.filter (fun f => (perms.lookup (wfsCleanLayerName f.tag)).isSome)).map
          (insertFeatureFiltered perms)) := by
  intro l
  induction l with
  | nil => intro _; rfl
  | cons f rest ih =>
    intro h
    have hrest := ih (fun x hx => h x (List.mem_cons_of_mem _ hx))
    simp only [filterInsertFeatures]
    cases hl : perms.lookup (wfsCleanLayerName f.tag) with
    | none =>
      rw [hrest]
      simp [List.filter_cons, hl]
    | some p =>
      have hc := h f (List.mem_cons_self _ _) p hl
      simp [hc, hrest, List.filter_cons, hl, insertFeatureFiltered]

theorem filterInsertList_ok (perms : List (String × WfsLayerPermission)) :
    ∀ ls, (∀ el ∈ ls, ∀ f ∈ el, ∀ p,
        perms.lookup (wfsCleanLayerName f.tag) = some p → p.creatable = true) →
      filterInsertList perms ls =
        .ok (ls.map (fun el =>
          (el.filter (fun f => (perms.lookup (wfsCleanLayerName f.tag)).isSome)).map
            (insertFeatureFiltered perms))) := by
  intro ls
  induction ls with
  | nil => intro _; rfl
  | cons el rest ih =>
    intro h
    simp only [filterInsertList]
    rw [filterInsertFeatures_ok perms el (h el (List.mem_cons_self _ _))]
    rw [ih (fun x hx => h x (List.mem_cons_of_mem _ hx))]
    simp

theorem filterUpdates_ok (perms : List (String × WfsLayerPermission)) :
    ∀ l, (∀ u ∈ l, ∀ p, perms.lookup (wfsCleanLayerName u.typeName) = some p → p.updatable = true) →
      filterUpdates perms l =
        .ok ((l.filter (fun u => (perms.lookup (wfsCleanLayerName u.typeName)).isSome)).map
          (updateElementFiltered perms)) := by
  intro l
  induction l with
  | nil => intro _; rfl
  | cons u rest ih =>
    intro h
    have hrest := ih (fun x hx => h x (List.mem_cons_of_mem _ hx))
    simp only [filterUpdates]
    cases hl : perms.lookup (wfsCleanLayerName u.typeName) with
    | none =>
      rw [hrest]
      simp [List.filter_cons, hl]
    | some p =>
      have hc := h u (List.mem_cons_self _ _) p hl
      simp [hc, hrest, List.filter_cons, hl, updateElementFiltered]

theorem filterDeletes_ok (perms : List (String × WfsLayerPermission)) :
    ∀ l, (∀ d ∈ l, ∀ p, perms.lookup (wfsCleanLayerName d) = some p → p.deletable = true) →
      filterDeletes perms l =
        .ok (l.filter (fun d => (perms.lookup (wfsCleanLayerName d)).isSome)) := by
  intro l
  induction l with
  | nil => intro _; rfl
  | cons d rest ih =>
    intro h
    have hrest := ih (fun x hx => h x (List.mem_cons_of_mem _ hx))
    simp only [filterDeletes]
    cases hl : perms.lookup (wfsCleanLayerName d) with
    | none =>
      rw [hrest]
      simp [List.filter_cons, hl]
    | some p =>
      have hc := h d (List.mem_cons_self _ _) p hl
      simp [hc, hrest, List.filter_cons, hl]

/-- C3: in `__check_transaction`, an Insert typename element that is
permitted but not `creatable` makes the whole transaction fail with a
Forbidden error (nothing is forwarded, the body is left unrewritten),
and the same holds for a permitted Update without `updatable` and a
permitted Delete without `deletable`; when no such element exists, every
Insert/Update/Delete element whose typename is not a key of the permission
set is silently removed and the remaining transaction (with unpermitted
attributes stripped, geometry kept) is forwarded. -/
theorem wfs_transaction_skip_vs_forbidden (body : TransactionBody)
    (perms : List (String × WfsLayerPermission)) :
    ((∃ el ∈ body.inserts, ∃ f ∈ el, ∃ p,
        perms.lookup (wfsCleanLayerName f.tag) = some p ∧ p.creatable = false) →
      ∃ m, checkTransaction body perms = .error ("Forbidden", m)) ∧
    ((∃ u ∈ body.updates, ∃ p,
        perms.lookup (wfsCleanLayerName u.typeName) = some p ∧ p.updatable = false) →
      ∃ m, checkTransaction body perms = .error ("Forbidden", m)) ∧
    ((∃ d ∈ body.deletes, ∃ p,
        perms.lookup (wfsCleanLayerName d) = some p ∧ p.deletable = false) →
      ∃ m, checkTransaction body perms = .error ("Forbidden", m)) ∧
    ((∀ el ∈ body.inserts, ∀ f ∈ el, ∀ p,
        perms.lookup (wfsCleanLayerName f.tag) = some p → p.creatable = true) →
     (∀ u ∈ body.updates, ∀ p,
        perms.lookup (wfsCleanLayerName u.typeName) = some p → p.updatable = true) →
     (∀ d ∈ body.deletes, ∀ p,
        perms.lookup (wfsCleanLayerName d) = some p → p.deletable = true) →
      checkTransaction body perms = .ok
        ⟨body.inserts.map (fun el =>
            (el.filter (fun f => (perms.lookup (wfsCleanLayerName f.tag)).isSome)).map
              (insertFeatureFiltered perms)),
          (body.updates.filter
            (fun u => (perms.lookup (wfsCleanLayerName u.typeName)).isSome)).map
            (updateElementFiltered perms),
          body.deletes.filter (fun d => (perms.lookup (wfsCleanLayerName d)).isSome)⟩) := by
  refine ⟨?_, ?_, ?_, ?_⟩
  · intro hbad
    obtain ⟨e, he⟩ := filterInsertList_bad perms body.inserts hbad
    have hcode := filterInsertList_error_code perms body.inserts e he
    refine ⟨e.2, ?_⟩
    simp only [checkTransaction, he]
    rw [show ("Forbidden", e.2) = e from Prod.ext hcode.symm rfl]
  · intro hbad
    simp only [checkTransaction]
    cases hi : filterInsertList perms body.inserts with
    | error e =>
      have hcode := filterInsertList_error_code perms body.inserts e hi
      exact ⟨e.2, by rw [show ("Forbidden", e.2) = e from Prod.ext hcode.symm rfl]⟩
    | ok inserts' =>
      obtain ⟨e, he⟩ := filterUpdates_bad perms body.updates hbad
      have hcode := filterUpdates_error_code perms body.updates e he
      refine ⟨e.2, ?_⟩
      simp only [he]
      rw [show ("Forbidden", e.2) = e from Prod.ext hcode.symm rfl]
  · intro hbad
    simp only [checkTransaction]
    cases hi : filterInsertList perms body.inserts with
    | error e =>
      have hcode := filterInsertList_error_code perms body.inserts e hi
      exact ⟨e.2, by rw [show ("Forbidden", e.2) = e from Prod.ext hcode.symm rfl]⟩
    | ok inserts' =>
      cases hu : filterUpdates perms body.updates with
      | error e =>
        have hcode := filterUpdates_error_code perms body.updates e hu
        exact ⟨e.2, by rw [show ("Forbidden", e.2) = e from Prod.ext hcode.symm rfl]⟩
      | ok updates' =>
        obtain ⟨e, he⟩ := filterDeletes_bad perms body.deletes hbad
        have hcode := filterDeletes_error_code perms body.deletes e he
        refine ⟨e.2, ?_⟩
        simp only [he]
        rw [show ("Forbidden", e.2) = e from Prod.ext hcode.symm rfl]
  · intro hins hupd hdel
    simp only [checkTransaction]
    rw [filterInsertList_ok perms body.inserts hins,
      filterUpdates_ok perms body.updates hupd,
      filterDeletes_ok perms body.deletes hdel]

/-- Witness for C3 on a concrete transaction: an Insert for the permitted
but non-creatable layer "locked" is rejected with Forbidden, while a
transaction whose Insert names the unknown layer "stranger" drops that
element (and the unpermitted attribute "b" of the kept feature) and
succeeds. -/
theorem wfs_transaction_skip_vs_forbidden_witness :
    (∃ m, checkTransaction ⟨[[⟨"locked", []⟩]], [], []⟩
        [("ok", ⟨["a"], true, true, true⟩), ("locked", ⟨[], false, false, false⟩)] =
      .error ("Forbidden", m)) ∧
    checkTransaction ⟨[[⟨"ok", ["a", "b"]⟩, ⟨"stranger", ["x"]⟩]], [⟨"stranger", ["y"]⟩], ["stranger"]⟩
        [("ok", ⟨["a"], true, true, true⟩), ("locked", ⟨[], false, false, false⟩)] =
      .ok ⟨[[⟨"ok", ["a"]⟩]], [], []⟩ := by
  constructor
  · exact (wfs_transaction_skip_vs_forbidden ⟨[[⟨"locked", []⟩]], [], []⟩
      [("ok", ⟨["a"], true, true, true⟩), ("locked", ⟨[], false, false, false⟩)]).1
      ⟨[⟨"locked", []⟩], by decide, ⟨"locked", []⟩, by decide,
        ⟨[], false, false, false⟩, by decide, rfl⟩
  · exact ((wfs_transaction_skip_vs_forbidden
      ⟨[[⟨"ok", ["a", "b"]⟩, ⟨"stranger", ["x"]⟩]], [⟨"stranger", ["y"]⟩], ["stranger"]⟩
      [("ok", ⟨["a"], true, true, true⟩), ("locked", ⟨[], false, false, false⟩)]).2.2.2
      (by decide) (by decide) (by decide)).trans (congrArg Except.ok (by decide))

/-- C4: on a permitted collection, POST requires `writable` and `creatable`,
PUT and PATCH require `writable` and `updatable`, DELETE requires `writable`
and `deletable`, each violation yielding the Forbidden JSON error with HTTP
403 and the payload left untouched; when the write is allowed the payload's
`properties` keys (for PATCH: the `modify` keys) are filtered to the
permitted-attribute set before forwarding. -/
theorem oapi_write_permission_checks (lp : OapiLayerPermission) (data : OapiPayload) :
    (¬(lp.writable = true ∧ lp.creatable = true) →
      getFeaturesRequest "POST" (some lp) data = (data, some ⟨"Forbidden", 403⟩)) ∧
    (lp.writable = true → lp.creatable = true →
      getFeaturesRequest "POST" (some lp) data =
        ({ data with properties := data.properties.map (filterPayloadKeys lp.attributes) }, none)) ∧
    (¬(lp.writable = true ∧ lp.updatable = true) →
      getFeatureRequest "PUT" (some lp) data = (data, some ⟨"Forbidden", 403⟩) ∧
      getFeatureRequest "PATCH" (some lp) data = (data, some ⟨"Forbidden", 403⟩)) ∧
    (lp.writable = true → lp.updatable = true →
      getFeatureRequest "PUT" (some lp) data =
        ({ data with properties := data.properties.map (filterPayloadKeys lp.attributes) }, none) ∧
      getFeatureRequest "PATCH" (some lp) data =
        ({ data with modify := data.modify.map (filterPayloadKeys lp.attributes) }, none)) ∧
    (¬(lp.writable = true ∧ lp.deletable = true) →
      getFeatureRequest "DELETE" (some lp) data = (data, some ⟨"Forbidden", 403⟩)) ∧
    (lp.writable = true → lp.deletable = true →
      getFeatureRequest "DELETE" (some lp) data = (data, none)) := by
  refine ⟨?_, ?_, ?_, ?_, ?_, ?_⟩
  · intro h
    cases hw : lp.writable with
    | false => simp [getFeaturesRequest, hw]
    | true =>
      cases hc : lp.creatable with
      | false => simp [getFeaturesRequest, hw, hc]
      | true => exact absurd ⟨hw, hc⟩ h
  · intro hw hc
    simp [getFeaturesRequest, hw, hc]
  · intro h
    cases hw : lp.writable with
    | false => constructor <;> simp [getFeatureRequest, hw]
    | true =>
      cases hu : lp.updatable with
      | false => constructor <;> simp [getFeatureRequest, hw, hu]
      | true => exact absurd ⟨hw, hu⟩ h
  · intro hw hu
    constructor <;> simp [getFeatureRequest, hw, hu]
  · intro h
    cases hw : lp.writable with
    | false => simp [getFeatureRequest, hw]
    | true =>
      cases hd : lp.deletable with
      | false => simp [getFeatureRequest, hw, hd]
      | true => exact absurd ⟨hw, hd⟩ h
  · intro hw hd
    simp [getFeatureRequest, hw, hd]

/-- Witness for C4: a layer permission with `writable` but no `creatable`
rejects POST with Forbidden/403, and with `writable` and `updatable` a
PATCH filters the `modify` object (the unpermitted key "secret" is
dropped, "a" is kept). -/
theorem oapi_write_permission_checks_witness :
    getFeaturesRequest "POST"
        (some ⟨["a"], true, false, true, true, false⟩) ⟨some [("a", "1")], none⟩ =
      (⟨some [("a", "1")], none⟩, some ⟨"Forbidden", 403⟩) ∧
    getFeatureRequest "PATCH"
        (some ⟨["a"], true, false, true, true, false⟩)
        ⟨none, some [("a", "1"), ("secret", "2")]⟩ =
      (⟨none, some [("a", "1")]⟩, none) := by
  constructor
  · exact (oapi_write_permission_checks ⟨["a"], true, false, true, true, false⟩
      ⟨some [("a", "1")], none⟩).1 (by simp)
  · exact (((oapi_write_permission_checks ⟨["a"], true, false, true, true, false⟩
      ⟨none, some [("a", "1"), ("secret", "2")]⟩).2.2.2.1 rfl rfl).2).trans (by decide)

theorem setParam_lookup_self (params : List (String × String)) (k v : String) :
    (setParam params k v).lookup k = some v := by
  induction params with
  | nil => simp [setParam]
  | cons kv rest ih =>
    obtain ⟨k1, v1⟩ := kv
    by_cases h : k1 = k
    · simp [setParam, h]
    · simp only [setParam, if_neg h, List.lookup]
      rw [show (k == k1) = false from by simpa using fun hh => h hh.symm]
      exact ih

theorem setParam_lookup_ne (params : List (String × String)) (k k' v : String) (h : k' ≠ k) :
    (setParam params k v).lookup k' = params.lookup k' := by
  induction params with
  | nil => simp [setParam, List.lookup, show (k' == k) = false from by simpa using h]
  | cons kv rest ih =>
    obtain ⟨k1, v1⟩ := kv
    by_cases hk : k1 = k
    · subst hk
      simp only [setParam, if_pos rfl, List.lookup]
      rw [show (k' == k1) = false from by simpa using h]
    · simp only [setParam, if_neg hk, List.lookup]
      cases hkk : k' == k1 with
      | true => rfl
      | false => exact ih

/-- C7: whenever `WfsHandler.process_request` accepts a request (so that it
is forwarded to the backend), the forwarded VERSION parameter is unchanged
if the client sent 1.0.0 or 1.1.0, and is rewritten to 1.1.0 otherwise
(including when VERSION is absent). -/
theorem wfs_version_normalization (request : String) (params : List (String × String))
    (perms : List (String × WfsLayerPermission)) (data : Option TransactionBody)
    (out : List (String × String) × Option TransactionBody)
    (h : wfsProcessRequest request params perms data = .ok out) :
    ((params.lookup "VERSION" = some "1.0.0" ∨ params.lookup "VERSION" = some "1.1.0") →
      out.1.lookup "VERSION" = params.lookup "VERSION") ∧
    (¬(params.lookup "VERSION" = some "1.0.0" ∨ params.lookup "VERSION" = some "1.1.0") →
      out.1.lookup "VERSION" = some "1.1.0") := by
  rw [wfsProcessRequest] at h
  by_cases hreq : request ∉ ["GETCAPABILITIES", "GETFEATURE", "DESCRIBEFEATURETYPE", "TRANSACTION"]
  · rw [if_pos hreq] at h
    exact absurd h (by simp)
  · rw [if_neg hreq] at h
    cases hfind1 : (pySplit ',' ((params.lookup "TYPENAME").getD "")).find? (fun t =>
        decide (t ≠ "") && decide (wfsCleanLayerName t ∉ perms.map Prod.fst)) with
    | some t =>
      simp only [hfind1] at h
      exact absurd h (by simp)
    | none =>
      simp only [hfind1] at h
      cases hfind2 : (pySplit ',' ((params.lookup "FEATUREID").getD "")).find? (fun fid =>
          decide (fid ≠ "") &&
          decide (wfsCleanLayerName ((pySplit '.' fid).headD "") ∉ perms.map Prod.fst)) with
      | some fid =>
        simp only [hfind2] at h
        exact absurd h (by simp)
      | none =>
        simp only [hfind2] at h
        generalize hpv : (if params.lookup "VERSION" = some "1.0.0" ∨
            params.lookup "VERSION" = some "1.1.0" then params
          else setParam params "VERSION" "1.1.0") = pv at h
        have hlookup : out.1.lookup "VERSION" = pv.lookup "VERSION" := by
          by_cases hgf : request = "GETFEATURE"
          · rw [if_pos hgf] at h
            cases h
            exact setParam_lookup_ne _ _ _ _ (by decide)
          · rw [if_neg hgf] at h
            by_cases htr : request = "TRANSACTION"
            · rw [if_pos htr] at h
              cases data with
              | none =>
                cases h
                rfl
              | some body =>
                cases hck : checkTransaction body perms with
                | error e =>
                  simp only [hck] at h
                  exact absurd h (by simp)
                | ok body2 =>
                  simp only [hck] at h
                  cases h
                  rfl
            · rw [if_neg htr] at h
              cases h
              rfl
        constructor
        · intro hv
          rw [hlookup, ← hpv, if_pos hv]
        · intro hv
          rw [hlookup, ← hpv, if_neg hv, setParam_lookup_self]

/-- Witness for C7: a GetCapabilities request carrying VERSION 2.0.0 is
rewritten to 1.1.0 before being forwarded. -/
theorem wfs_version_normalization_witness :
    ((([("VERSION", "1.1.0")], (none : Option TransactionBody))).1).lookup "VERSION" =
      some "1.1.0" :=
  (wfs_version_normalization "GETCAPABILITIES" [("VERSION", "2.0.0")] [] none
    ([("VERSION", "1.1.0")], none) rfl).2 (by decide)

/-- C8: when the backend HTTP call returns a non-2xx status,
`forward_request` answers with the generic ServiceExceptionReport carrying
the fixed internal-error message, and the outcome does not depend on the
backend response body in any way (the body is only logged server-side). -/
theorem backend_failure_hides_body (status : Nat) (b b' : String)
    (h : status < 200 ∨ 300 ≤ status) :
    forwardRequestOutcome status b =
      .exceptionReport (serviceException "UnknownError" internalErrorMessage)
        "text/xml; charset=utf-8" status ∧
    forwardRequestOutcome status b = forwardRequestOutcome status b' := by
  have hne : status ≠ 200 := by omega
  constructor <;> simp [forwardRequestOutcome, hne]

/-- Witness for C8: a backend 503 with a secret body yields the fixed
exception report, unchanged when the backend body changes. -/
theorem backend_failure_hides_body_witness :
    forwardRequestOutcome 503 "secret backend dump" =
      .exceptionReport (serviceException "UnknownError" internalErrorMessage)
        "text/xml; charset=utf-8" 503 ∧
    forwardRequestOutcome 503 "secret backend dump" = forwardRequestOutcome 503 "other body" :=
  backend_failure_hides_body 503 "secret backend dump" "other body" (by omega)

/-- C10: `wfs_getfeature_geojson` evaluates the unbound name `text` on line
243 and therefore raises NameError on every input, never returning a
filtered document; consequently `wfs_getfeature` fails for every request
whose (normalized) OUTPUTFORMAT is geojson, whatever the backend status,
body and content type and whatever the GML filter would do. -/
theorem wfs_getfeature_geojson_always_fails :
    (∀ t, wfsGetfeatureGeojson t = .error .nameError) ∧
    (∀ (gmlFilter : String → String) (status : Nat) (ofp : Option String) (ct t : String),
      asciiLower (ofp.getD "gml3") = "geojson" →
      wfsGetfeature gmlFilter status ofp ct t = .error .nameError) := by
  have hgeo : ∀ t, wfsGetfeatureGeojson t = .error .nameError := by
    intro t
    simp only [wfsGetfeatureGeojson]
    rw [show pythonResolves ["response", "permissions", "geo_json", "features"]
      wfsFiltersModuleGlobals "text" = false from by decide]
    rfl
  refine ⟨hgeo, ?_⟩
  intro gmlFilter status ofp ct t hfmt
  by_cases hs : status = 200
  · subst hs
    simp [wfsGetfeature, hfmt, hgeo t]
  · simp [wfsGetfeature, hs]

/-- Witness for C10: a concrete 200-status GetFeature with OUTPUTFORMAT
geojson raises NameError. -/
theorem wfs_getfeature_geojson_always_fails_witness :
    wfsGetfeature id 200 (some "geojson") "application/json" "geojson body" =
      .error .nameError :=
  wfs_getfeature_geojson_always_fails.2 id 200 (some "geojson") "application/json"
    "geojson body" (by decide)

/-- C5: for a WMS GETFEATUREINFO request whose LAYERS parameter passes the
layer permission check (the validation order is first-failure-wins), a
QUERY_LAYERS parameter that is not string-equal to LAYERS is rejected with
an InvalidParameterValue exception, and an INFO_FORMAT outside
text/plain, text/html, text/xml is rejected with an InvalidFormat
exception; every format starting with application/vnd.ogc.gml is outside
that whitelist.  Both rejections happen in `process_request`, before any
backend call. -/
theorem wms_getfeatureinfo_validation (params : List (String × String))
    (perms : WmsPermissionsView) (ls : String)
    (hL : params.lookup "LAYERS" = some ls) (hne : ls ≠ "")
    (hok : ∀ layer ∈ pySplit ',' ls,
      (decide (layer ≠ "") && !pyStartsWith "EXTERNAL_WMS:" layer &&
        decide (layer ∉ perms.public_layers)) = false) :
    (params.lookup "QUERY_LAYERS" ≠ some ls →
      wmsRequestChecks "GETFEATUREINFO" params perms =
        some ("InvalidParameterValue",
          "LAYERS must be identical to QUERY_LAYERS for GETFEATUREINFO operation")) ∧
    (params.lookup "QUERY_LAYERS" = some ls →
      (params.lookup "INFO_FORMAT").getD "text/plain" ∉ wmsInfoFormatWhitelist →
      wmsRequestChecks "GETFEATUREINFO" params perms =
        some ("InvalidFormat",
          "Feature info format " ++ (params.lookup "INFO_FORMAT").getD "text/plain" ++
            " is not supported.")) ∧
    (∀ s : String, pyStartsWith "application/vnd.ogc.gml" s = true →
      s ∉ wmsInfoFormatWhitelist) := by
  have hwl : ∀ s : String, pyStartsWith "application/vnd.ogc.gml" s = true →
      s ∉ wmsInfoFormatWhitelist := by
    intro s hs hmem
    simp only [wmsInfoFormatWhitelist, List.mem_cons, List.not_mem_nil, or_false] at hmem
    rcases hmem with rfl | rfl | rfl
    · exact absurd hs (by decide)
    · exact absurd hs (by decide)
    · exact absurd hs (by decide)
  have hfind : (pySplit ',' ls).find? (fun layer =>
      decide (layer ≠ "") && !pyStartsWith "EXTERNAL_WMS:" layer &&
        decide (layer ∉ perms.public_layers ++ [])) = none :=
    List.find?_eq_none.mpr (fun x hx => by
      rw [List.append_nil, hok x hx]
      simp)
  have step1 : wmsRequestChecks "GETFEATUREINFO" params perms =
      (match (match params.lookup "LAYERS" with
        | some layers =>
          if layers ≠ "" then
            match (pySplit ',' layers).find? (fun layer =>
                decide (layer ≠ "") && !pyStartsWith "EXTERNAL_WMS:" layer &&
                decide (layer ∉ perms.public_layers ++ [])) with
            | some layer =>
              some ("LayerNotDefined", "Layer " ++ layer ++ " does not exist or is not permitted")
            | none => none
          else some ("MissingParameterValue", "LAYERS is mandatory for GETFEATUREINFO operation")
        | none => some ("MissingParameterValue", "LAYERS is mandatory for GETFEATUREINFO operation")
        : Option (String × String)) with
      | some e => some e
      | none =>
        if params.lookup "LAYERS" ≠ params.lookup "QUERY_LAYERS" then
          some ("InvalidParameterValue",
            "LAYERS must be identical to QUERY_LAYERS for GETFEATUREINFO operation")
        else
          if (params.lookup "INFO_FORMAT").getD "text/plain" ∉ wmsInfoFormatWhitelist then
            some ("InvalidFormat", "Feature info format " ++
              (params.lookup "INFO_FORMAT").getD "text/plain" ++ " is not supported.")
          else none) := rfl
  have hred : wmsRequestChecks "GETFEATUREINFO" params perms =
      (if (some ls : Option String) ≠ params.lookup "QUERY_LAYERS" then
        some ("InvalidParameterValue",
          "LAYERS must be identical to QUERY_LAYERS for GETFEATUREINFO operation")
      else
        if (params.lookup "INFO_FORMAT").getD "text/plain" ∉ wmsInfoFormatWhitelist then
          some ("InvalidFormat",
            "Feature info format " ++ (params.lookup "INFO_FORMAT").getD "text/plain" ++
              " is not supported.")
        else none) := by
    rw [step1]
    simp only [hL]
    rw [if_pos hne]
    simp only [hfind]
  refine ⟨?_, ?_, hwl⟩
  · intro hq
    rw [hred, if_pos (fun heq => hq heq.symm)]
  · intro hq hfmt
    rw [hred, if_neg (by rw [hq]; simp), if_pos hfmt]

/-- Witness for C5: with permitted layers a and b, a GETFEATUREINFO request
with LAYERS=a and QUERY_LAYERS=b is rejected with InvalidParameterValue,
and one with matching layers but the GML info format is rejected with
InvalidFormat. -/
theorem wms_getfeatureinfo_validation_witness :
    wmsRequestChecks "GETFEATUREINFO" [("LAYERS", "a"), ("QUERY_LAYERS", "b")]
        ⟨["a", "b"], [], []⟩ =
      some ("InvalidParameterValue",
        "LAYERS must be identical to QUERY_LAYERS for GETFEATUREINFO operation") ∧
    wmsRequestChecks "GETFEATUREINFO"
        [("LAYERS", "a"), ("QUERY_LAYERS", "a"),
          ("INFO_FORMAT", "application/vnd.ogc.gml/3.1.1")] ⟨["a", "b"], [], []⟩ =
      some ("InvalidFormat",
        "Feature info format application/vnd.ogc.gml/3.1.1 is not supported.") := by
  constructor
  · exact (wms_getfeatureinfo_validation [("LAYERS", "a"), ("QUERY_LAYERS", "b")]
      ⟨["a", "b"], [], []⟩ "a" (by decide) (by decide) (by decide)).1 (by decide)
  · exact ((wms_getfeatureinfo_validation
      [("LAYERS", "a"), ("QUERY_LAYERS", "a"),
        ("INFO_FORMAT", "application/vnd.ogc.gml/3.1.1")]
      ⟨["a", "b"], [], []⟩ "a" (by decide) (by decide) (by decide)).2.1
      (by decide) (by decide)).trans (by decide)

end QwcOgc
